import Mathlib

/-!
# aws_go_sdk_playground: the bucket-address resolver and the three S3 steps

A shallow embedding of `main.go`.  Go strings are embedded as Lean strings and
inspected through their character lists; the only byte the program looks for
is the ASCII `/` and the only prefixes it tests are ASCII, so on well-formed
UTF-8 the byte-level and the character-level readings agree.

The AWS SDK is an external collaborator.  It is a parameter of every function
(`Sdk`), given as state-passing functions over an arbitrary world state, and
every call that crosses into it is recorded in a trace.  Pointer fields of SDK
values are options; dereferencing a nil one is a panic (`Outcome.panicked`),
which ends the process with status 2.
-/

namespace AwsPlayground

/-! ## The Go standard library functions the program uses -/

/-- The loop of `bytealg.LastIndexByteString`: scan `s[n-1], s[n-2], ..., s[0]`
for `c`, answer the first index found, and `-1` when the scan runs out. -/
def lastIndexByteFrom (s : List Char) (c : Char) : Nat → Int
  | 0 => -1
  | n + 1 => if s[n]? = some c then (n : Int) else lastIndexByteFrom s c n

/-- Index of the last `c` in `s`, or `-1`. -/
def lastIndexByte (s : String) (c : Char) : Int :=
  lastIndexByteFrom s.data c s.data.length

/-- Go `path.Split`: `i := LastIndexByteString(path, '/'); return path[:i+1], path[i+1:]`. -/
def pathSplit (path : String) : String × String :=
  let i := lastIndexByte path '/'
  (String.mk (path.data.take (i + 1).toNat), String.mk (path.data.drop (i + 1).toNat))

/-- Go `strings.HasPrefix`: `len(s) >= len(prefix) && s[:len(prefix)] == prefix`. -/
def stringsHasPrefix (s pre : String) : Bool :=
  decide (pre.data.length ≤ s.data.length) && (String.mk (s.data.take pre.data.length) == pre)

/-! ## Values exchanged with the SDK -/

/-- A Go `error` value: one made by `errors.New` in this program, or one handed
back by the SDK. -/
inductive GoError where
  | errorsNew (msg : String)
  | sdk (msg : String)
deriving DecidableEq, Repr

/-- The fields of `aws.Endpoint` that `getConfig` sets (the others keep their
zero value). -/
structure Endpoint where
  PartitionID : String
  URL : String
  SigningRegion : String
  HostnameImmutable : Bool
deriving DecidableEq, Repr

/-- The two load options `getConfig` passes to `config.LoadDefaultConfig`.  An
endpoint resolver is a function of the service and the region. -/
inductive LoadOption where
  | WithRegion (region : String)
  | WithEndpointResolverWithOptions (resolver : String → String → Except GoError Endpoint)

/-- The `s3.CreateBucketInput` the program fills in. -/
structure CreateBucketInput where
  Bucket : Option String
deriving DecidableEq, Repr

/-- The `s3.PutObjectInput` the program fills in; `Body` is the byte payload. -/
structure PutObjectInput where
  Bucket : Option String
  Key : Option String
  Body : List Nat
deriving DecidableEq, Repr

/-- The `s3.ListObjectsV2Input`; a field the program leaves out is `none`. -/
structure ListObjectsV2Input where
  Bucket : Option String
  Prefix : Option String
  ContinuationToken : Option String
deriving DecidableEq, Repr

/-- One entry of `ListObjectsV2Output.Contents`.  `Key` is a `*string` in the
SDK: `none` is the nil pointer. -/
structure Object where
  Key : Option String
  Size : Int
  StorageClass : String
deriving DecidableEq, Repr

/-- The part of `s3.ListObjectsV2Output` that matters for listing. -/
structure ListObjectsV2Output where
  Contents : List Object
  IsTruncated : Bool
  NextContinuationToken : Option String
deriving DecidableEq, Repr

/-- The SDK as the program sees it, over a world state `σ` (ambient
credentials, the remote store) and a config type `Cfg` (`aws.Config`).
`Upload` takes the uploader's `Concurrency`. -/
structure Sdk (σ Cfg : Type) where
  LoadDefaultConfig : List LoadOption → σ → Except GoError Cfg × σ
  CreateBucket : Cfg → CreateBucketInput → σ → Option GoError × σ
  Upload : Cfg → Nat → PutObjectInput → σ → Option GoError × σ
  ListObjectsV2 : Cfg → ListObjectsV2Input → σ → Except GoError ListObjectsV2Output × σ

/-- A call into the SDK. -/
inductive Call where
  | LoadDefaultConfig (opts : List LoadOption)
  | CreateBucket (input : CreateBucketInput)
  | Upload (concurrency : Nat) (input : PutObjectInput)
  | ListObjectsV2 (input : ListObjectsV2Input)

/-- A recorded call and whether it returned without error. -/
structure Event where
  call : Call
  ok : Bool

/-- A line written through the `log` package. -/
inductive LogEntry where
  | print (msg : String)
  | printErr (e : GoError)
  | fatal (e : GoError)
  | object (key : String) (size : Int) (storageClass : String)
deriving DecidableEq, Repr

/-- The state of a run: the world, the SDK calls made so far, the log. -/
structure Run (σ : Type) where
  world : σ
  trace : List Event
  logs : List LogEntry

/-- How a function call ends: it returns a value, or it panics (a nil pointer
dereference) and the panic unwinds through the caller. -/
inductive Outcome (α : Type) where
  | returned (v : α)
  | panicked
deriving DecidableEq, Repr

/-- The state at process start. -/
def Run.init {σ : Type} (w : σ) : Run σ := { world := w, trace := [], logs := [] }

/-- Append one log line. -/
def Run.log {σ : Type} (r : Run σ) (l : LogEntry) : Run σ := { r with logs := r.logs ++ [l] }

/-- Whether a call is a request to the remote store. -/
def Call.isRemote : Call → Bool
  | .LoadDefaultConfig _ => false
  | .CreateBucket _ => true
  | .Upload _ _ => true
  | .ListObjectsV2 _ => true

/-- The requests to the remote store in a trace, in order. -/
def remoteCalls (t : List Event) : List Call := (t.map Event.call).filter Call.isRemote

/-- The endpoint a list of load options pins for a service and region: the
answer of the last endpoint-resolver option, `none` when there is none. -/
def pinnedEndpoint : List LoadOption → String → String → Option (Except GoError Endpoint)
  | [], _, _ => none
  | .WithRegion _ :: t, service, region => pinnedEndpoint t service region
  | .WithEndpointResolverWithOptions f :: t, service, region =>
      match pinnedEndpoint t service region with
      | some e => some e
      | none => some (f service region)

/-- The region a list of load options sets: the last `WithRegion`, if any. -/
def pinnedRegion : List LoadOption → Option String
  | [] => none
  | .WithRegion g :: t => match pinnedRegion t with
      | some h => some h
      | none => some g
  | .WithEndpointResolverWithOptions _ :: t => pinnedRegion t

/-! ## Calls into the SDK, recorded -/

section Program

variable {σ Cfg : Type}

/-- Call `config.LoadDefaultConfig` with the given options. -/
def callLoadDefaultConfig (sdk : Sdk σ Cfg) (opts : List LoadOption) (r : Run σ) :
    Except GoError Cfg × Run σ :=
  match sdk.LoadDefaultConfig opts r.world with
  | (.ok cfg, w) =>
      (.ok cfg, { r with world := w, trace := r.trace ++ [⟨.LoadDefaultConfig opts, true⟩] })
  | (.error e, w) =>
      (.error e, { r with world := w, trace := r.trace ++ [⟨.LoadDefaultConfig opts, false⟩] })

/-- Call `client.CreateBucket`. -/
def callCreateBucket (sdk : Sdk σ Cfg) (cfg : Cfg) (input : CreateBucketInput) (r : Run σ) :
    Option GoError × Run σ :=
  match sdk.CreateBucket cfg input r.world with
  | (none, w) => (none, { r with world := w, trace := r.trace ++ [⟨.CreateBucket input, true⟩] })
  | (some e, w) =>
      (some e, { r with world := w, trace := r.trace ++ [⟨.CreateBucket input, false⟩] })

/-- Call `uploader.Upload` on an uploader with the given concurrency. -/
def callUpload (sdk : Sdk σ Cfg) (cfg : Cfg) (concurrency : Nat) (input : PutObjectInput)
    (r : Run σ) : Option GoError × Run σ :=
  match sdk.Upload cfg concurrency input r.world with
  | (none, w) =>
      (none, { r with world := w, trace := r.trace ++ [⟨.Upload concurrency input, true⟩] })
  | (some e, w) =>
      (some e, { r with world := w, trace := r.trace ++ [⟨.Upload concurrency input, false⟩] })

/-- Call `client.ListObjectsV2`. -/
def callListObjectsV2 (sdk : Sdk σ Cfg) (cfg : Cfg) (input : ListObjectsV2Input) (r : Run σ) :
    Except GoError ListObjectsV2Output × Run σ :=
  match sdk.ListObjectsV2 cfg input r.world with
  | (.ok out, w) =>
      (.ok out, { r with world := w, trace := r.trace ++ [⟨.ListObjectsV2 input, true⟩] })
  | (.error e, w) =>
      (.error e, { r with world := w, trace := r.trace ++ [⟨.ListObjectsV2 input, false⟩] })

/-! ## The program -/

/-- The function `getConfig` (main.go 18-51). -/
def getConfig (sdk : Sdk σ Cfg) (bucketAddress : String) (r : Run σ) :
    Except GoError Cfg × Run σ :=
  if stringsHasPrefix bucketAddress "s3://" then
    match callLoadDefaultConfig sdk [] r with
    | (.error err, r1) => (.error err, r1)
    | (.ok cfg, r1) => (.ok cfg, r1)
  else if stringsHasPrefix bucketAddress "https://" || stringsHasPrefix bucketAddress "http://" then
    let server := (pathSplit bucketAddress).1
    let resolver : String → String → Except GoError Endpoint := fun _service _region =>
      .ok { PartitionID := "aws", URL := server, SigningRegion := "us-east-1",
            HostnameImmutable := true }
    match callLoadDefaultConfig sdk
        [.WithRegion "us-east-1", .WithEndpointResolverWithOptions resolver] r with
    | (.error err, r1) => (.error err, r1)
    | (.ok cfg, r1) => (.ok cfg, r1)
  else
    (.error (.errorsNew "bucketAddress did not contain s3://, http://, or https:// prefix"), r)

/-- The function `createBucket` (main.go 53-67); `none` is the nil error. -/
def createBucket (sdk : Sdk σ Cfg) (bucketAddress : String) (r : Run σ) :
    Option GoError × Run σ :=
  match getConfig sdk bucketAddress r with
  | (.error err, r1) => (some err, r1)
  | (.ok cfg, r1) =>
    let bucket := (pathSplit bucketAddress).2
    match callCreateBucket sdk cfg { Bucket := some bucket } r1 with
    | (some err, r2) => (some err, r2)
    | (none, r2) => (none, r2)

/-- The function `upload` (main.go 69-88). -/
def upload (sdk : Sdk σ Cfg) (bucketAddress key : String) (b : List Nat) (r : Run σ) :
    Option GoError × Run σ :=
  match getConfig sdk bucketAddress r with
  | (.error err, r1) => (some err, r1)
  | (.ok cfg, r1) =>
    let concurrency := 3
    let bucket := (pathSplit bucketAddress).2
    match callUpload sdk cfg concurrency
        { Bucket := some bucket, Key := some key, Body := b } r1 with
    | (some err, r2) => (some err, r2.log (.print "uploader.Upload returned an error"))
    | (none, r2) => (none, r2)

/-- The loop of `listObjects` (main.go 106-108) over the entries still to
print.  The arguments of `log.Printf` are evaluated first, so `*object.Key` on a
nil `Key` panics before anything is printed for that entry; the entries before
it are already in the log. -/
def printObjects : List Object → Run σ → Outcome Unit × Run σ
  | [], r => (.returned (), r)
  | object :: rest, r =>
    match object.Key with
    | none => (.panicked, r)
    | some key => printObjects rest (r.log (.object key object.Size object.StorageClass))

/-- The function `listObjects` (main.go 90-110): it returns an error or nil, or
panics in its loop. -/
def listObjects (sdk : Sdk σ Cfg) (bucketAddress : String) (r : Run σ) :
    Outcome (Option GoError) × Run σ :=
  match getConfig sdk bucketAddress r with
  | (.error err, r1) => (.returned (some err), r1)
  | (.ok cfg, r1) =>
    let bucket := (pathSplit bucketAddress).2
    match callListObjectsV2 sdk cfg
        { Bucket := some bucket, Prefix := some "", ContinuationToken := none } r1 with
    | (.error err, r2) => (.returned (some err), r2)
    | (.ok listObjsResponse, r2) =>
      match printObjects listObjsResponse.Contents r2 with
      | (.panicked, r3) => (.panicked, r3)
      | (.returned _, r3) => (.returned none, r3)

/-- The value of a flag variable. -/
inductive FlagValue where
  | str (s : String)
  | bool (b : Bool)
deriving DecidableEq, Repr

/-- The `flag.CommandLine` flag set: the process arguments it would parse, and
the defined flags with the current value of the variable each one points to.
Only `flag.Parse` reads `args` and writes the variables after their definition. -/
structure FlagSet where
  args : List String
  formal : List (String × FlagValue)

/-- Go `flag.String(name, value, usage)`: define the flag with its variable set to
`value`, and return the pointer (the variable is named by the flag). -/
def FlagSet.defString (fs : FlagSet) (name value : String) : FlagSet × String :=
  ({ fs with formal := (name, .str value) :: fs.formal }, name)

/-- Go `flag.Bool(name, value, usage)`, likewise. -/
def FlagSet.defBool (fs : FlagSet) (name : String) (value : Bool) : FlagSet × String :=
  ({ fs with formal := (name, .bool value) :: fs.formal }, name)

/-- Read a string flag variable through its pointer. -/
def FlagSet.derefString (fs : FlagSet) (p : String) : String :=
  match fs.formal.lookup p with
  | some (.str s) => s
  | _ => ""

/-- Read a boolean flag variable through its pointer. -/
def FlagSet.derefBool (fs : FlagSet) (p : String) : Bool :=
  match fs.formal.lookup p with
  | some (.bool b) => b
  | _ => false

/-- The bytes of `[]byte("blah")`. -/
def blah : List Nat := [98, 108, 97, 104]

/-- What `main` does with an error of the creation step (main.go 119-121):
`log.Print(err)` and go on. -/
def logIfErr (res : Option GoError × Run σ) : Run σ :=
  match res with
  | (some err, r1) => r1.log (.printErr err)
  | (none, r1) => r1

/-- Lines 118-128 of `main`, from the values read through the two flag
pointers; the answer is the exit status: 0 when `main` returns, 1 from
`log.Fatal`, 2 when a panic reaches the top of the goroutine. -/
def mainSteps (sdk : Sdk σ Cfg) (b : List Nat) (bucketAddress : String) (createBuck : Bool)
    (r : Run σ) : Nat × Run σ :=
  let r1 := if createBuck then logIfErr (createBucket sdk bucketAddress r) else r
  match upload sdk bucketAddress "thing" b r1 with
  | (some err, r2) => (1, r2.log (.fatal err))
  | (none, r2) =>
    match listObjects sdk bucketAddress r2 with
    | (.returned (some err), r3) => (1, r3.log (.fatal err))
    | (.returned none, r3) => (0, r3)
    | (.panicked, r3) => (2, r3)

/-- The function `main` (main.go 112-130) on the process arguments `args`.  The two flags
are defined and their variables read; `flag.Parse` is not called in between. -/
def main (sdk : Sdk σ Cfg) (args : List String) (r : Run σ) : Nat × Run σ :=
  let b := blah
  let fs0 : FlagSet := { args := args, formal := [] }
  let (fs1, bucketAddress) := fs0.defString "bucket_address" "http://127.0.0.1:9000/test"
  let (fs2, createBuck) := fs1.defBool "create_bucket" false
  mainSteps sdk b (fs2.derefString bucketAddress) (fs2.derefBool createBuck) r

end Program

/-! ## A small in-memory S3 used to run the program on concrete inputs -/

/-- The buckets that exist and the objects stored, as (bucket, object). -/
structure MemStore where
  buckets : List String
  objects : List (String × Object)
deriving DecidableEq, Repr

/-- An SDK over `MemStore` whose config loader always succeeds and hands back
the options it was given. -/
def memSdk : Sdk MemStore (List LoadOption) where
  LoadDefaultConfig := fun opts w => (.ok opts, w)
  CreateBucket := fun _ input w =>
    match input.Bucket with
    | none => (some (.sdk "InvalidParameter"), w)
    | some bkt =>
      if bkt ∈ w.buckets then (some (.sdk "BucketAlreadyOwnedByYou"), w)
      else (none, { w with buckets := w.buckets ++ [bkt] })
  Upload := fun _ _ input w =>
    match input.Bucket, input.Key with
    | some bkt, some k =>
      if bkt ∈ w.buckets then
        (none, { w with objects := w.objects ++
          [(bkt, { Key := some k, Size := input.Body.length, StorageClass := "STANDARD" })] })
      else (some (.sdk "NoSuchBucket"), w)
    | _, _ => (some (.sdk "InvalidParameter"), w)
  ListObjectsV2 := fun _ input w =>
    match input.Bucket with
    | none => (.error (.sdk "InvalidParameter"), w)
    | some bkt =>
      if bkt ∈ w.buckets then
        (.ok { Contents := (w.objects.filter (fun p => p.1 == bkt)).map Prod.snd,
               IsTruncated := false, NextContinuationToken := none }, w)
      else (.error (.sdk "NoSuchBucket"), w)

/-- An SDK whose config loader finds no credentials. -/
def noCredsSdk : Sdk MemStore (List LoadOption) :=
  { memSdk with LoadDefaultConfig := fun _ w => (.error (.sdk "no credentials"), w) }

/-- The empty store. -/
def emptyStore : MemStore := { buckets := [], objects := [] }

/-- A store with the bucket `test` and nothing in it. -/
def testStore : MemStore := { buckets := ["test"], objects := [] }

/-- A store with the bucket `test` holding two objects. -/
def twoObjectStore : MemStore :=
  { buckets := ["test"],
    objects := [("test", { Key := some "thing", Size := 4, StorageClass := "STANDARD" }),
                ("test", { Key := some "other", Size := 0, StorageClass := "GLACIER" })] }

/-- An SDK like `memSdk` whose listing answers three entries, the second
without a key. -/
def nilKeySdk : Sdk MemStore (List LoadOption) :=
  { memSdk with
    ListObjectsV2 := fun _ _ w =>
      (.ok { Contents := [{ Key := some "thing", Size := 4, StorageClass := "STANDARD" },
                          { Key := none, Size := 0, StorageClass := "STANDARD" },
                          { Key := some "other", Size := 7, StorageClass := "STANDARD" }],
             IsTruncated := false, NextContinuationToken := none }, w) }


/-! ## Facts about the string functions -/

theorem stringsHasPrefix_iff (s pre : String) :
    stringsHasPrefix s pre = true ↔ pre.data <+: s.data := by
  unfold stringsHasPrefix
  rw [Bool.and_eq_true, decide_eq_true_iff, beq_iff_eq, List.prefix_iff_eq_take]
  constructor
  · rintro ⟨_, h⟩
    exact (congrArg String.data h).symm
  · intro h
    refine ⟨?_, ?_⟩
    · have := congrArg List.length h
      rw [List.length_take] at this
      omega
    · apply String.ext
      exact h.symm

/-- What the backwards scan answers: `-1` and no `c` below `n`, or the largest
index below `n` that holds `c`. -/
theorem lastIndexByteFrom_spec (s : List Char) (c : Char) (n : Nat) :
    (lastIndexByteFrom s c n = -1 ∧ ∀ i, i < n → s[i]? ≠ some c) ∨
    (∃ k, k < n ∧ lastIndexByteFrom s c n = (k : Int) ∧ s[k]? = some c ∧
      ∀ i, k < i → i < n → s[i]? ≠ some c) := by
  induction n with
  | zero => left; exact ⟨rfl, fun i hi => absurd hi (Nat.not_lt_zero i)⟩
  | succ n ih =>
    unfold lastIndexByteFrom
    by_cases h : s[n]? = some c
    · right
      refine ⟨n, Nat.lt_succ_self n, by rw [if_pos h], h, ?_⟩
      intro i h1 h2
      omega
    · rw [if_neg h]
      rcases ih with ⟨h1, h2⟩ | ⟨k, hk, h1, h2, h3⟩
      · left
        refine ⟨h1, ?_⟩
        intro i hi
        rcases Nat.lt_succ_iff_lt_or_eq.mp hi with hlt | heq
        · exact h2 i hlt
        · rw [heq]; exact h
      · right
        refine ⟨k, Nat.lt_succ_of_lt hk, h1, h2, ?_⟩
        intro i hki hi
        rcases Nat.lt_succ_iff_lt_or_eq.mp hi with hlt | heq
        · exact h3 i hki hlt
        · rw [heq]; exact h

theorem getElem?_lt_of_eq_some {l : List Char} {j : Nat} {c : Char} (h : l[j]? = some c) :
    j < l.length := by
  by_contra hge
  rw [List.getElem?_eq_none (by omega)] at h
  exact absurd h (by simp)

theorem pathSplit_append (a : String) : (pathSplit a).1 ++ (pathSplit a).2 = a := by
  apply String.ext
  simp [pathSplit, String.data_append]

theorem pathSplit_snd_no_slash (a : String) : '/' ∉ (pathSplit a).2.data := by
  intro hmem
  simp only [pathSplit] at hmem
  obtain ⟨j, hj⟩ := List.getElem?_of_mem hmem
  rw [List.getElem?_drop] at hj
  have hlt := getElem?_lt_of_eq_some hj
  unfold lastIndexByte at hj hlt
  rcases lastIndexByteFrom_spec a.data '/' a.data.length with ⟨h1, h2⟩ | ⟨k, hk, h1, _, h3⟩
  · rw [h1] at hj hlt
    simp at hj hlt
    exact h2 j hlt hj
  · rw [h1] at hj hlt
    have e : ((k : Int) + 1).toNat = k + 1 := by omega
    rw [e] at hj hlt
    exact h3 (k + 1 + j) (by omega) hlt hj

theorem pathSplit_fst_ends_slash (a : String) (h : '/' ∈ a.data) :
    (pathSplit a).1.data.getLast? = some '/' := by
  simp only [pathSplit]
  unfold lastIndexByte
  rcases lastIndexByteFrom_spec a.data '/' a.data.length with ⟨_, h2⟩ | ⟨k, hk, h1, h2, _⟩
  · obtain ⟨j, hj⟩ := List.getElem?_of_mem h
    exact absurd hj (h2 j (getElem?_lt_of_eq_some hj))
  · rw [h1]
    have e : ((k : Int) + 1).toNat = k + 1 := by omega
    rw [e, List.getLast?_eq_getElem?, List.length_take, Nat.min_eq_left (by omega)]
    simp only [Nat.add_sub_cancel]
    rw [List.getElem?_take, if_pos (by omega)]
    exact h2

theorem slash_mem_of_http (a : String)
    (h : "http://".data <+: a.data ∨ "https://".data <+: a.data) : '/' ∈ a.data := by
  rcases h with h | h
  · exact h.subset (by decide)
  · exact h.subset (by decide)

theorem pathSplit_snd_of_ends_slash (a : String) (h : a.data.getLast? = some '/') :
    (pathSplit a).2 = "" := by
  have h0 := pathSplit_append a
  have h1 := pathSplit_snd_no_slash a
  apply String.ext
  show (pathSplit a).2.data = []
  by_contra hne
  have h2 : a.data = (pathSplit a).1.data ++ (pathSplit a).2.data := by
    rw [← String.data_append, h0]
  rw [h2, List.getLast?_append_of_ne_nil _ hne] at h
  exact h1 (List.mem_of_getLast?_eq_some h)

/-! ## Facts about the recorded SDK calls -/

section Lemmas

variable {σ Cfg : Type}

theorem not_s3_of_http (a : String)
    (h : "http://".data <+: a.data ∨ "https://".data <+: a.data) : ¬ "s3://".data <+: a.data := by
  intro hs
  rcases h with h | h
  · rcases List.prefix_or_prefix_of_prefix hs h with h' | h'
    · exact absurd h' (by decide)
    · exact absurd h' (by decide)
  · rcases List.prefix_or_prefix_of_prefix hs h with h' | h'
    · exact absurd h' (by decide)
    · exact absurd h' (by decide)

theorem callLoadDefaultConfig_eq (sdk : Sdk σ Cfg) (opts : List LoadOption) (r : Run σ) :
    ∃ okFlag, callLoadDefaultConfig sdk opts r =
      ((sdk.LoadDefaultConfig opts r.world).1,
       { world := (sdk.LoadDefaultConfig opts r.world).2,
         trace := r.trace ++ [⟨.LoadDefaultConfig opts, okFlag⟩], logs := r.logs }) := by
  unfold callLoadDefaultConfig
  rcases h : sdk.LoadDefaultConfig opts r.world with ⟨res, w⟩
  cases res with
  | error e => exact ⟨false, rfl⟩
  | ok cfg => exact ⟨true, rfl⟩

theorem getConfig_of_s3 (sdk : Sdk σ Cfg) (a : String) (r : Run σ)
    (h : "s3://".data <+: a.data) : getConfig sdk a r = callLoadDefaultConfig sdk [] r := by
  unfold getConfig
  rw [if_pos ((stringsHasPrefix_iff _ _).mpr h)]
  rcases callLoadDefaultConfig sdk [] r with ⟨res, r1⟩
  cases res <;> rfl

theorem getConfig_of_http (sdk : Sdk σ Cfg) (a : String) (r : Run σ)
    (h : "http://".data <+: a.data ∨ "https://".data <+: a.data) :
    getConfig sdk a r = callLoadDefaultConfig sdk
      [.WithRegion "us-east-1", .WithEndpointResolverWithOptions (fun _ _ =>
        .ok { PartitionID := "aws", URL := (pathSplit a).1, SigningRegion := "us-east-1",
              HostnameImmutable := true })] r := by
  unfold getConfig
  rw [if_neg (by rw [stringsHasPrefix_iff]; exact not_s3_of_http a h)]
  have h2 : (stringsHasPrefix a "https://" || stringsHasPrefix a "http://") = true := by
    rw [Bool.or_eq_true, stringsHasPrefix_iff, stringsHasPrefix_iff]
    exact h.symm
  rw [if_pos h2]
  simp only
  rcases callLoadDefaultConfig sdk _ r with ⟨res, r1⟩
  cases res <;> rfl

theorem getConfig_of_other (sdk : Sdk σ Cfg) (a : String) (r : Run σ)
    (h1 : ¬ "s3://".data <+: a.data) (h2 : ¬ "http://".data <+: a.data)
    (h3 : ¬ "https://".data <+: a.data) :
    getConfig sdk a r =
      (.error (.errorsNew "bucketAddress did not contain s3://, http://, or https:// prefix"),
        r) := by
  unfold getConfig
  rw [if_neg (by rw [stringsHasPrefix_iff]; exact h1)]
  have h : ¬ ((stringsHasPrefix a "https://" || stringsHasPrefix a "http://") = true) := by
    rw [Bool.or_eq_true, stringsHasPrefix_iff, stringsHasPrefix_iff]
    exact fun h => h.elim h3 h2
  rw [if_neg h]

/-- Config resolution never talks to the remote store and never logs. -/
theorem getConfig_quiet (sdk : Sdk σ Cfg) (a : String) (r : Run σ) :
    remoteCalls (getConfig sdk a r).2.trace = remoteCalls r.trace ∧
    (getConfig sdk a r).2.logs = r.logs := by
  by_cases h1 : "s3://".data <+: a.data
  · rw [getConfig_of_s3 sdk a r h1]
    obtain ⟨okFlag, e⟩ := callLoadDefaultConfig_eq sdk [] r
    rw [e]
    simp [remoteCalls, Call.isRemote]
  · by_cases h2 : "http://".data <+: a.data ∨ "https://".data <+: a.data
    · rw [getConfig_of_http sdk a r h2]
      obtain ⟨okFlag, e⟩ := callLoadDefaultConfig_eq sdk _ r
      rw [e]
      simp [remoteCalls, Call.isRemote]
    · rw [getConfig_of_other sdk a r h1 (fun h => h2 (Or.inl h)) (fun h => h2 (Or.inr h))]
      exact ⟨rfl, rfl⟩

/-- The print loop makes no SDK call. -/
theorem printObjects_quiet (objs : List Object) (r : Run σ) :
    (printObjects objs r).2.trace = r.trace ∧ (printObjects objs r).2.world = r.world := by
  induction objs generalizing r with
  | nil => exact ⟨rfl, rfl⟩
  | cons o t ih =>
    unfold printObjects
    cases hk : o.Key with
    | none => exact ⟨rfl, rfl⟩
    | some k => exact ih _

/-- On entries that all carry a key the print loop returns, after one log
entry per element, in order. -/
theorem printObjects_of_keys (objs : List Object) (r : Run σ)
    (h : ∀ o ∈ objs, o.Key ≠ none) :
    printObjects objs r =
      (.returned (),
       { world := r.world, trace := r.trace,
         logs := r.logs ++
           objs.map (fun o => LogEntry.object (o.Key.getD "") o.Size o.StorageClass) }) := by
  induction objs generalizing r with
  | nil => simp [printObjects]
  | cons o t ih =>
    unfold printObjects
    cases hk : o.Key with
    | none => exact absurd hk (h o (List.mem_cons_self o t))
    | some k =>
      simp only
      rw [ih _ (fun x hx => h x (List.mem_cons_of_mem o hx))]
      simp [Run.log, hk]

/-- On entries one of which has a nil key the print loop panics. -/
theorem printObjects_of_nil_key (objs : List Object) (r : Run σ)
    (h : ∃ o ∈ objs, o.Key = none) : (printObjects objs r).1 = .panicked := by
  induction objs generalizing r with
  | nil => obtain ⟨o, ho, _⟩ := h; exact absurd ho (List.not_mem_nil o)
  | cons o t ih =>
    unfold printObjects
    cases hk : o.Key with
    | none => rfl
    | some k =>
      simp only
      apply ih
      obtain ⟨x, hx, hxk⟩ := h
      rcases List.mem_cons.mp hx with rfl | hx'
      · rw [hk] at hxk; exact absurd hxk (by simp)
      · exact ⟨x, hx', hxk⟩

theorem main_eq_mainSteps (sdk : Sdk σ Cfg) (args : List String) (r : Run σ) :
    main sdk args r = mainSteps sdk blah "http://127.0.0.1:9000/test" false r := by
  rfl

end Lemmas

section RunLemmas

variable {σ Cfg : Type}

theorem createBucket_of_config_error (sdk : Sdk σ Cfg) (a : String) (r r1 : Run σ) (e : GoError)
    (h : getConfig sdk a r = (.error e, r1)) : createBucket sdk a r = (some e, r1) := by
  unfold createBucket
  rw [h]

theorem upload_of_config_error (sdk : Sdk σ Cfg) (a key : String) (b : List Nat)
    (r r1 : Run σ) (e : GoError)
    (h : getConfig sdk a r = (.error e, r1)) : upload sdk a key b r = (some e, r1) := by
  unfold upload
  rw [h]

theorem listObjects_of_config_error (sdk : Sdk σ Cfg) (a : String) (r r1 : Run σ) (e : GoError)
    (h : getConfig sdk a r = (.error e, r1)) :
    listObjects sdk a r = (.returned (some e), r1) := by
  unfold listObjects
  rw [h]

theorem listObjects_of_config_ok (sdk : Sdk σ Cfg) (a : String) (r r1 : Run σ) (cfg : Cfg)
    (h : getConfig sdk a r = (.ok cfg, r1)) :
    listObjects sdk a r =
      match sdk.ListObjectsV2 cfg
          { Bucket := some (pathSplit a).2, Prefix := some "", ContinuationToken := none }
          r1.world with
      | (.error e, w) =>
          (.returned (some e),
           { world := w,
             trace := r1.trace ++ [⟨.ListObjectsV2
               { Bucket := some (pathSplit a).2, Prefix := some "",
                 ContinuationToken := none }, false⟩],
             logs := r1.logs })
      | (.ok out, w) =>
          match printObjects out.Contents
              { world := w,
                trace := r1.trace ++ [⟨.ListObjectsV2
                  { Bucket := some (pathSplit a).2, Prefix := some "",
                    ContinuationToken := none }, true⟩],
                logs := r1.logs } with
          | (.panicked, r3) => (.panicked, r3)
          | (.returned _, r3) => (.returned none, r3) := by
  unfold listObjects
  rw [h]
  simp only [callListObjectsV2]
  rcases sdk.ListObjectsV2 cfg _ r1.world with ⟨res, w⟩
  cases res with
  | error e => rfl
  | ok out => rfl

/-- The trace and world `listObjects` ends with do not depend on how its print
loop ends. -/
theorem listObjects_trace_of_config_ok (sdk : Sdk σ Cfg) (a : String) (r r1 : Run σ) (cfg : Cfg)
    (h : getConfig sdk a r = (.ok cfg, r1)) :
    ∃ okFlag, (listObjects sdk a r).2.trace = r1.trace ++ [⟨.ListObjectsV2
      { Bucket := some (pathSplit a).2, Prefix := some "", ContinuationToken := none },
      okFlag⟩] := by
  rw [listObjects_of_config_ok sdk a r r1 cfg h]
  rcases sdk.ListObjectsV2 cfg _ r1.world with ⟨res, w⟩
  cases res with
  | error e => exact ⟨false, rfl⟩
  | ok out =>
    refine ⟨true, ?_⟩
    simp only
    have hq := (printObjects_quiet out.Contents
      ({ world := w,
         trace := r1.trace ++ [⟨.ListObjectsV2
           { Bucket := some (pathSplit a).2, Prefix := some "",
             ContinuationToken := none }, true⟩],
         logs := r1.logs } : Run σ)).1
    rcases hp : printObjects out.Contents _ with ⟨o, r3⟩
    rw [hp] at hq
    cases o <;> exact hq

/-- When the config resolves, each operation adds exactly one request to those
made so far, and the request names the bucket that `path.Split` gives as the
file part of the address. -/
theorem requests_carry_bucket (sdk : Sdk σ Cfg) (a key : String) (b : List Nat)
    (r r1 : Run σ) (cfg : Cfg) (h : getConfig sdk a r = (.ok cfg, r1)) :
    remoteCalls (createBucket sdk a r).2.trace
      = remoteCalls r.trace ++ [.CreateBucket { Bucket := some (pathSplit a).2 }] ∧
    remoteCalls (upload sdk a key b r).2.trace
      = remoteCalls r.trace ++
          [.Upload 3 { Bucket := some (pathSplit a).2, Key := some key, Body := b }] ∧
    remoteCalls (listObjects sdk a r).2.trace
      = remoteCalls r.trace ++
          [.ListObjectsV2 { Bucket := some (pathSplit a).2, Prefix := some "",
                            ContinuationToken := none }] := by
  have hq := (getConfig_quiet sdk a r).1
  rw [h] at hq
  simp only at hq
  refine ⟨?_, ?_, ?_⟩
  · unfold createBucket
    rw [h]
    simp only [callCreateBucket]
    rcases sdk.CreateBucket cfg _ r1.world with ⟨res, w⟩
    cases res <;> simp [remoteCalls, Call.isRemote] at hq ⊢ <;> exact hq
  · unfold upload
    rw [h]
    simp only [callUpload]
    rcases sdk.Upload cfg 3 _ r1.world with ⟨res, w⟩
    cases res <;> simp [remoteCalls, Call.isRemote, Run.log] at hq ⊢ <;> exact hq
  · obtain ⟨okFlag, e⟩ := listObjects_trace_of_config_ok sdk a r r1 cfg h
    rw [e]
    simp [remoteCalls, Call.isRemote] at hq ⊢
    exact hq

/-- The exit status of the steps, case by case: with `u` the upload step run
after the optional creation and `l` the list step run from where the upload
ended. -/
theorem mainSteps_exit_cases (sdk : Sdk σ Cfg) (b : List Nat) (a : String) (c : Bool)
    (r : Run σ) :
    let r1 := if c then logIfErr (createBucket sdk a r) else r
    let u := upload sdk a "thing" b r1
    let l := listObjects sdk a u.2
    let out := mainSteps sdk b a c r
    (out.1 = 1 ↔ (u.1 ≠ none ∨ (u.1 = none ∧ ∃ e, l.1 = .returned (some e)))) ∧
    (out.1 = 2 ↔ (u.1 = none ∧ l.1 = .panicked)) ∧
    (out.1 = 0 ↔ (u.1 = none ∧ l.1 = .returned none)) ∧
    (u.1 ≠ none → out.2.trace = u.2.trace ∧ out.2.world = u.2.world) ∧
    (u.1 = none → out.2.trace = l.2.trace ∧ out.2.world = l.2.world) := by
  intro r1 u l out
  show (((mainSteps sdk b a c r).1 = 1 ↔ _) ∧ ((mainSteps sdk b a c r).1 = 2 ↔ _) ∧
    ((mainSteps sdk b a c r).1 = 0 ↔ _) ∧ (_ → (mainSteps sdk b a c r).2.trace = _ ∧
      (mainSteps sdk b a c r).2.world = _) ∧ (_ → (mainSteps sdk b a c r).2.trace = _ ∧
      (mainSteps sdk b a c r).2.world = _))
  have hu : u = upload sdk a "thing" b r1 := rfl
  have hl : l = listObjects sdk a u.2 := rfl
  have hr1 : r1 = if c then logIfErr (createBucket sdk a r) else r := rfl
  clear_value l u r1
  unfold mainSteps
  simp only [← hr1, ← hu]
  rcases u with ⟨_ | e, r2⟩
  · simp only at hl ⊢
    rw [← hl]
    rcases l with ⟨_ | _, r3⟩
    · rename_i v
      cases v <;> simp [Run.log]
    · simp
  · simp [Run.log]

/-- A run of the steps without creation in which every recorded call succeeded,
for an address whose config resolution goes through the loader. -/
theorem mainSteps_all_ok (sdk : Sdk σ Cfg) (b : List Nat) (a : String) (opts : List LoadOption)
    (hg : ∀ r, getConfig sdk a r = callLoadDefaultConfig sdk opts r) (w : σ)
    (hok : ∀ e ∈ (mainSteps sdk b a false (Run.init w)).2.trace, e.ok = true) :
    ((mainSteps sdk b a false (Run.init w)).1 = 0 ∨
      (mainSteps sdk b a false (Run.init w)).1 = 2) ∧
    remoteCalls (mainSteps sdk b a false (Run.init w)).2.trace =
      [.Upload 3 { Bucket := some (pathSplit a).2, Key := some "thing", Body := b },
       .ListObjectsV2 { Bucket := some (pathSplit a).2, Prefix := some "",
                        ContinuationToken := none }] := by
  rcases h1 : sdk.LoadDefaultConfig opts w with ⟨res1, w1⟩
  cases res1 with
  | error e =>
    exfalso
    simp [mainSteps, upload, hg, callLoadDefaultConfig, h1, Run.init, Run.log] at hok
  | ok cfg =>
    rcases h2 : sdk.Upload cfg 3
      { Bucket := some (pathSplit a).2, Key := some "thing", Body := b } w1 with ⟨res2, w2⟩
    cases res2 with
    | some e =>
      exfalso
      simp [mainSteps, upload, hg, callLoadDefaultConfig, callUpload, h1, h2, Run.init,
        Run.log] at hok
    | none =>
      rcases h3 : sdk.LoadDefaultConfig opts w2 with ⟨res3, w3⟩
      cases res3 with
      | error e =>
        exfalso
        simp [mainSteps, upload, listObjects, hg, callLoadDefaultConfig, callUpload, h1, h2, h3,
          Run.init, Run.log] at hok
      | ok cfg2 =>
        rcases h4 : sdk.ListObjectsV2 cfg2
          { Bucket := some (pathSplit a).2, Prefix := some "", ContinuationToken := none } w3
          with ⟨res4, w4⟩
        cases res4 with
        | error e =>
          exfalso
          simp [mainSteps, upload, listObjects, hg, callLoadDefaultConfig, callUpload,
            callListObjectsV2, h1, h2, h3, h4, Run.init, Run.log] at hok
        | ok out =>
          have hq := printObjects_quiet out.Contents
            ({ world := w4,
               trace := [⟨.LoadDefaultConfig opts, true⟩,
                 ⟨.Upload 3 { Bucket := some (pathSplit a).2, Key := some "thing",
                              Body := b }, true⟩,
                 ⟨.LoadDefaultConfig opts, true⟩,
                 ⟨.ListObjectsV2 { Bucket := some (pathSplit a).2, Prefix := some "",
                                   ContinuationToken := none }, true⟩],
               logs := [] } : Run σ)
          rcases hp : printObjects out.Contents
            ({ world := w4,
               trace := [⟨.LoadDefaultConfig opts, true⟩,
                 ⟨.Upload 3 { Bucket := some (pathSplit a).2, Key := some "thing",
                              Body := b }, true⟩,
                 ⟨.LoadDefaultConfig opts, true⟩,
                 ⟨.ListObjectsV2 { Bucket := some (pathSplit a).2, Prefix := some "",
                                   ContinuationToken := none }, true⟩],
               logs := [] } : Run σ) with ⟨o, r3⟩
          rw [hp] at hq
          simp only at hq
          cases o <;>
            simp [mainSteps, upload, listObjects, hg, callLoadDefaultConfig, callUpload,
              callListObjectsV2, h1, h2, h3, h4, Run.init, hp, hq.1, remoteCalls,
              Call.isRemote]

theorem getConfig_via_loader (sdk : Sdk σ Cfg) (a : String)
    (hp : "s3://".data <+: a.data ∨ "http://".data <+: a.data ∨ "https://".data <+: a.data) :
    ∃ opts, ∀ r, getConfig sdk a r = callLoadDefaultConfig sdk opts r := by
  rcases hp with h | h
  · exact ⟨_, fun r => getConfig_of_s3 sdk a r h⟩
  · exact ⟨_, fun r => getConfig_of_http sdk a r h⟩

theorem all_ok_of_all (t : List Event) (h : t.all Event.ok = true) :
    ∀ e ∈ t, e.ok = true :=
  List.all_eq_true.mp h

end RunLemmas

/-! ## The claims -/

section Claims

variable {σ Cfg : Type}

/-- C1: an address that starts with none of `s3://`, `http://`, `https://` makes
`getConfig` return no config and the invalid-address error, and the run state
is untouched: no loader call, no request. -/
theorem getConfig_rejects_unknown_scheme (sdk : Sdk σ Cfg) (bucketAddress : String) (r : Run σ)
    (h1 : ¬ "s3://".data <+: bucketAddress.data)
    (h2 : ¬ "http://".data <+: bucketAddress.data)
    (h3 : ¬ "https://".data <+: bucketAddress.data) :
    getConfig sdk bucketAddress r =
      (.error (.errorsNew "bucketAddress did not contain s3://, http://, or https:// prefix"),
        r) :=
  getConfig_of_other sdk bucketAddress r h1 h2 h3

theorem getConfig_rejects_unknown_scheme_witness :
    (¬ "s3://".data <+: "ftp://127.0.0.1/test".data) ∧
    (¬ "http://".data <+: "ftp://127.0.0.1/test".data) ∧
    (¬ "https://".data <+: "ftp://127.0.0.1/test".data) ∧
    getConfig memSdk "ftp://127.0.0.1/test" (Run.init testStore) =
      (.error (.errorsNew "bucketAddress did not contain s3://, http://, or https:// prefix"),
        Run.init testStore) :=
  ⟨by decide, by decide, by decide,
   getConfig_rejects_unknown_scheme memSdk "ftp://127.0.0.1/test" (Run.init testStore)
     (by decide) (by decide) (by decide)⟩

/-- C2: at `http://127.0.0.1:9000/test` the split is
(`http://127.0.0.1:9000/`, `test`), so server, `/`, bucket joined is
`http://127.0.0.1:9000//test`, which is not a prefix of the address; and at no
address at all is that join a prefix of the address. -/
theorem pathSplit_slash_join_not_prefix :
    pathSplit "http://127.0.0.1:9000/test" = ("http://127.0.0.1:9000/", "test") ∧
    (pathSplit "http://127.0.0.1:9000/test").1 ++ "/" ++ (pathSplit "http://127.0.0.1:9000/test").2
      = "http://127.0.0.1:9000//test" ∧
    (¬ "http://127.0.0.1:9000//test".data <+: "http://127.0.0.1:9000/test".data) ∧
    ∀ a : String, ¬ ((pathSplit a).1 ++ "/" ++ (pathSplit a).2).data <+: a.data := by
  refine ⟨by decide, by decide, by decide, ?_⟩
  intro a h
  have hlen := h.length_le
  have e : a.data.length = (pathSplit a).1.data.length + (pathSplit a).2.data.length := by
    conv_lhs => rw [← pathSplit_append a]
    rw [String.data_append, List.length_append]
  rw [String.data_append, String.data_append, List.length_append, List.length_append] at hlen
  have : "/".data.length = 1 := rfl
  omega

/-- C3: for `http://127.0.0.1:9000/test`, `getConfig` makes one loader call,
with region `us-east-1` and a resolver that answers, for every service and
region, partition `aws`, signing region `us-east-1`, immutable hostname and the
URL `http://127.0.0.1:9000/`, which keeps the trailing slash and so is not
`http://127.0.0.1:9000`; the bucket name is `test`. -/
theorem getConfig_local_endpoint_url (sdk : Sdk σ Cfg) (r : Run σ) :
    ∃ opts okFlag,
      (getConfig sdk "http://127.0.0.1:9000/test" r).2.trace
        = r.trace ++ [⟨.LoadDefaultConfig opts, okFlag⟩] ∧
      (∀ service region, pinnedEndpoint opts service region =
        some (.ok { PartitionID := "aws", URL := "http://127.0.0.1:9000/",
                    SigningRegion := "us-east-1", HostnameImmutable := true })) ∧
      pinnedRegion opts = some "us-east-1" ∧
      (pathSplit "http://127.0.0.1:9000/test").2 = "test" ∧
      "http://127.0.0.1:9000/" ≠ "http://127.0.0.1:9000" := by
  rw [getConfig_of_http sdk _ r (Or.inl (by decide))]
  have hs : (pathSplit "http://127.0.0.1:9000/test").1 = "http://127.0.0.1:9000/" := by decide
  rw [hs]
  obtain ⟨okFlag, e⟩ := callLoadDefaultConfig_eq sdk
    [.WithRegion "us-east-1", .WithEndpointResolverWithOptions (fun _ _ =>
        .ok { PartitionID := "aws", URL := "http://127.0.0.1:9000/",
              SigningRegion := "us-east-1", HostnameImmutable := true })] r
  rw [e]
  exact ⟨_, okFlag, rfl, fun _ _ => rfl, rfl, by decide, by decide⟩

/-- C4: for an address that starts with `s3://`, `getConfig` makes exactly one
loader call, with the empty option list (no region, no endpoint resolver), and
hands back the loader's config or error as it is; nothing is logged.  For
`s3://my-bucket`, whenever the config resolves, the one request that each of
`createBucket`, `upload` and `listObjects` adds names the bucket `my-bucket`,
which is the file part `path.Split` gives. -/
theorem getConfig_s3_default_chain (sdk : Sdk σ Cfg) (bucketAddress : String) (r : Run σ)
    (h : "s3://".data <+: bucketAddress.data) :
    (getConfig sdk bucketAddress r).1 = (sdk.LoadDefaultConfig [] r.world).1 ∧
    (getConfig sdk bucketAddress r).2.world = (sdk.LoadDefaultConfig [] r.world).2 ∧
    (∃ okFlag, (getConfig sdk bucketAddress r).2.trace
        = r.trace ++ [⟨.LoadDefaultConfig [], okFlag⟩]) ∧
    (getConfig sdk bucketAddress r).2.logs = r.logs ∧
    (∀ service region, pinnedEndpoint [] service region = none) ∧
    pinnedRegion [] = none ∧
    pathSplit "s3://my-bucket" = ("s3://", "my-bucket") ∧
    (∀ (key : String) (b : List Nat) (cfg : Cfg) (r1 : Run σ),
      getConfig sdk "s3://my-bucket" r = (.ok cfg, r1) →
      remoteCalls (createBucket sdk "s3://my-bucket" r).2.trace
        = remoteCalls r.trace ++ [.CreateBucket { Bucket := some "my-bucket" }] ∧
      remoteCalls (upload sdk "s3://my-bucket" key b r).2.trace
        = remoteCalls r.trace ++
            [.Upload 3 { Bucket := some "my-bucket", Key := some key, Body := b }] ∧
      remoteCalls (listObjects sdk "s3://my-bucket" r).2.trace
        = remoteCalls r.trace ++
            [.ListObjectsV2 { Bucket := some "my-bucket", Prefix := some "",
                              ContinuationToken := none }]) := by
  rw [getConfig_of_s3 sdk bucketAddress r h]
  obtain ⟨okFlag, e⟩ := callLoadDefaultConfig_eq sdk [] r
  rw [e]
  refine ⟨rfl, rfl, ⟨okFlag, rfl⟩, rfl, fun _ _ => rfl, rfl, by decide, ?_⟩
  intro key b cfg r1 hc
  have hb : (pathSplit "s3://my-bucket").2 = "my-bucket" := by decide
  have hreq := requests_carry_bucket sdk "s3://my-bucket" key b r r1 cfg hc
  rw [hb] at hreq
  exact hreq

theorem getConfig_s3_default_chain_witness :
    "s3://".data <+: "s3://my-bucket".data ∧
    (getConfig noCredsSdk "s3://my-bucket" (Run.init emptyStore)).1
      = .error (.sdk "no credentials") ∧
    (∃ okFlag, (getConfig noCredsSdk "s3://my-bucket" (Run.init emptyStore)).2.trace
      = [⟨.LoadDefaultConfig [], okFlag⟩]) ∧
    remoteCalls (createBucket memSdk "s3://my-bucket" (Run.init emptyStore)).2.trace
      = [.CreateBucket { Bucket := some "my-bucket" }] ∧
    remoteCalls (upload memSdk "s3://my-bucket" "thing" blah (Run.init emptyStore)).2.trace
      = [.Upload 3 { Bucket := some "my-bucket", Key := some "thing", Body := blah }] :=
  ⟨by decide,
   (getConfig_s3_default_chain noCredsSdk "s3://my-bucket" (Run.init emptyStore) (by decide)).1,
   (getConfig_s3_default_chain noCredsSdk "s3://my-bucket" (Run.init emptyStore)
      (by decide)).2.2.1,
   ((getConfig_s3_default_chain memSdk "s3://my-bucket" (Run.init emptyStore)
      (by decide)).2.2.2.2.2.2.2 "thing" blah []
      { world := emptyStore, trace := [⟨.LoadDefaultConfig [], true⟩], logs := [] }
      (by rfl)).1,
   ((getConfig_s3_default_chain memSdk "s3://my-bucket" (Run.init emptyStore)
      (by decide)).2.2.2.2.2.2.2 "thing" blah []
      { world := emptyStore, trace := [⟨.LoadDefaultConfig [], true⟩], logs := [] }
      (by rfl)).2.1⟩

/-- C5: `main` never reads its arguments: for every argument list it runs the
steps on the default address with creation off.  With
`-create_bucket=true -bucket_address=s3://my-bucket` against the empty store it
sends a single upload for bucket `test`, no CreateBucket, and exits 1, where
the steps run with those two values create `my-bucket`, upload, list and
exit 0. -/
theorem main_ignores_flags :
    (∀ (σ Cfg : Type) (sdk : Sdk σ Cfg) (args : List String) (r : Run σ),
      main sdk args r = mainSteps sdk blah "http://127.0.0.1:9000/test" false r) ∧
    (main memSdk ["-create_bucket=true", "-bucket_address=s3://my-bucket"]
        (Run.init emptyStore)).1 = 1 ∧
    remoteCalls (main memSdk ["-create_bucket=true", "-bucket_address=s3://my-bucket"]
        (Run.init emptyStore)).2.trace
      = [.Upload 3 { Bucket := some "test", Key := some "thing", Body := blah }] ∧
    (mainSteps memSdk blah "s3://my-bucket" true (Run.init emptyStore)).1 = 0 ∧
    remoteCalls (mainSteps memSdk blah "s3://my-bucket" true (Run.init emptyStore)).2.trace
      = [.CreateBucket { Bucket := some "my-bucket" },
         .Upload 3 { Bucket := some "my-bucket", Key := some "thing", Body := blah },
         .ListObjectsV2 { Bucket := some "my-bucket", Prefix := some "",
                          ContinuationToken := none }] := by
  refine ⟨fun _ _ _ _ _ => rfl, by rfl, by rfl, by rfl, by rfl⟩

end Claims

section ClaimsRun

variable {σ Cfg : Type}

/-- C6: against an SDK whose listing holds an entry with a nil key, on the
default address with the bucket present: the upload step returns no error, the
list step run from there sends its request and then panics at `*object.Key`
instead of returning, and the process ends with status 2, so it terminates
non-zero although neither step returned an error.  The same holds of `main`. -/
theorem mainSteps_exit_on_nil_key :
    (upload nilKeySdk "http://127.0.0.1:9000/test" "thing" blah (Run.init testStore)).1 = none ∧
    (listObjects nilKeySdk "http://127.0.0.1:9000/test"
      (upload nilKeySdk "http://127.0.0.1:9000/test" "thing" blah (Run.init testStore)).2).1
      = .panicked ∧
    (mainSteps nilKeySdk blah "http://127.0.0.1:9000/test" false (Run.init testStore)).1 = 2 ∧
    (main nilKeySdk [] (Run.init testStore)).1 = 2 ∧
    (main nilKeySdk [] (Run.init testStore)).2.logs = [.object "thing" 4 "STANDARD"] := by
  refine ⟨by rfl, by rfl, by rfl, by rfl, by rfl⟩

/-- C7: when `getConfig` fails with `e` from a state, each of `createBucket`,
`upload` and `listObjects` run from that state returns `e` and ends in the very
state `getConfig` ends in, which holds no request to the remote store and no log
line beyond those of the starting state. -/
theorem config_error_surfaces_identically (sdk : Sdk σ Cfg) (bucketAddress key : String)
    (b : List Nat) (r : Run σ) (e : GoError)
    (h : (getConfig sdk bucketAddress r).1 = .error e) :
    createBucket sdk bucketAddress r = (some e, (getConfig sdk bucketAddress r).2) ∧
    upload sdk bucketAddress key b r = (some e, (getConfig sdk bucketAddress r).2) ∧
    listObjects sdk bucketAddress r
      = (.returned (some e), (getConfig sdk bucketAddress r).2) ∧
    remoteCalls (getConfig sdk bucketAddress r).2.trace = remoteCalls r.trace ∧
    (getConfig sdk bucketAddress r).2.logs = r.logs := by
  have hq := getConfig_quiet sdk bucketAddress r
  rcases hg : getConfig sdk bucketAddress r with ⟨res, r1⟩
  rw [hg] at h hq
  simp only at h
  subst h
  exact ⟨createBucket_of_config_error sdk _ r r1 e hg,
         upload_of_config_error sdk _ key b r r1 e hg,
         listObjects_of_config_error sdk _ r r1 e hg, hq.1, hq.2⟩

theorem config_error_surfaces_identically_witness :
    (getConfig noCredsSdk "http://127.0.0.1:9000/test" (Run.init testStore)).1
      = .error (.sdk "no credentials") ∧
    (createBucket noCredsSdk "http://127.0.0.1:9000/test" (Run.init testStore)).1
      = some (.sdk "no credentials") ∧
    (upload noCredsSdk "http://127.0.0.1:9000/test" "thing" blah (Run.init testStore)).1
      = some (.sdk "no credentials") ∧
    (listObjects noCredsSdk "http://127.0.0.1:9000/test" (Run.init testStore)).1
      = .returned (some (.sdk "no credentials")) ∧
    remoteCalls (getConfig noCredsSdk "http://127.0.0.1:9000/test" (Run.init testStore)).2.trace
      = [] :=
  ⟨by rfl,
   congrArg Prod.fst (config_error_surfaces_identically noCredsSdk "http://127.0.0.1:9000/test"
     "thing" blah (Run.init testStore) (.sdk "no credentials") (by rfl)).1,
   congrArg Prod.fst (config_error_surfaces_identically noCredsSdk "http://127.0.0.1:9000/test"
     "thing" blah (Run.init testStore) (.sdk "no credentials") (by rfl)).2.1,
   congrArg Prod.fst (config_error_surfaces_identically noCredsSdk "http://127.0.0.1:9000/test"
     "thing" blah (Run.init testStore) (.sdk "no credentials") (by rfl)).2.2.1,
   (config_error_surfaces_identically noCredsSdk "http://127.0.0.1:9000/test"
     "thing" blah (Run.init testStore) (.sdk "no credentials") (by rfl)).2.2.2.1⟩

/-- What `listObjects` does on a listing all of whose entries carry a key: one
request, and after it one log entry per element, in order, whatever
`IsTruncated` and `NextContinuationToken` are; on a failed request the error
and no log line. -/
theorem listObjects_of_keyed_page (sdk : Sdk σ Cfg) (a : String) (r r1 : Run σ)
    (cfg : Cfg) (h : getConfig sdk a r = (.ok cfg, r1)) :
    (∀ e w,
        sdk.ListObjectsV2 cfg
          { Bucket := some (pathSplit a).2, Prefix := some "",
            ContinuationToken := none } r1.world = (.error e, w) →
        (listObjects sdk a r).1 = .returned (some e) ∧
        (listObjects sdk a r).2.world = w ∧
        (listObjects sdk a r).2.logs = r1.logs) ∧
    (∀ out w,
        sdk.ListObjectsV2 cfg
          { Bucket := some (pathSplit a).2, Prefix := some "",
            ContinuationToken := none } r1.world = (.ok out, w) →
        (∀ o ∈ out.Contents, o.Key ≠ none) →
        (listObjects sdk a r).1 = .returned none ∧
        (listObjects sdk a r).2.world = w ∧
        (listObjects sdk a r).2.logs = r1.logs ++
          out.Contents.map (fun o => LogEntry.object (o.Key.getD "") o.Size o.StorageClass)) := by
  rw [listObjects_of_config_ok sdk a r r1 cfg h]
  refine ⟨?_, ?_⟩
  · intro e w hx
    rw [hx]
    exact ⟨rfl, rfl, rfl⟩
  · intro out w hx hk
    rw [hx]
    simp only
    rw [printObjects_of_keys out.Contents _ hk]
    exact ⟨rfl, rfl, rfl⟩

/-- C8: against an SDK whose listing answers three entries, the second with a
nil key, `listObjects` sends its one `ListObjectsV2` request (bucket `test`,
empty prefix, no continuation token), the request succeeds, and the loop then
panics at `*object.Key`: the log holds the single entry printed before the
panic, not one entry per element of the three returned. -/
theorem listObjects_panics_on_nil_key :
    remoteCalls (listObjects nilKeySdk "http://127.0.0.1:9000/test"
        (Run.init testStore)).2.trace
      = [.ListObjectsV2 { Bucket := some "test", Prefix := some "",
                          ContinuationToken := none }] ∧
    (∀ e ∈ (listObjects nilKeySdk "http://127.0.0.1:9000/test" (Run.init testStore)).2.trace,
      e.ok = true) ∧
    (listObjects nilKeySdk "http://127.0.0.1:9000/test" (Run.init testStore)).1 = .panicked ∧
    (listObjects nilKeySdk "http://127.0.0.1:9000/test" (Run.init testStore)).2.logs
      = [.object "thing" 4 "STANDARD"] := by
  refine ⟨by rfl, all_ok_of_all _ (by rfl), by rfl, by rfl⟩

end ClaimsRun

section ClaimsTail

variable {σ Cfg : Type}

/-- C9: a run of the steps without creation, from process start, with the
payload of `main`, on an address with a recognised scheme, in which every
recorded SDK call (config loads and requests) succeeded, sends exactly two
requests, in this order: an upload with concurrency 3 under key `thing`, to the
bucket name split off the address, whose body is the 4 bytes of `blah`, then a
`ListObjectsV2` for that bucket; nothing ends it through `log.Fatal` (the
status is 0, or 2 when the print loop panics).  Every run of `main` is a run of
the steps with that payload. -/
theorem mainSteps_requests_on_success (sdk : Sdk σ Cfg) (bucketAddress : String) (w : σ)
    (hp : "s3://".data <+: bucketAddress.data ∨ "http://".data <+: bucketAddress.data ∨
          "https://".data <+: bucketAddress.data)
    (hok : ∀ e ∈ (mainSteps sdk blah bucketAddress false (Run.init w)).2.trace, e.ok = true) :
    ((mainSteps sdk blah bucketAddress false (Run.init w)).1 = 0 ∨
      (mainSteps sdk blah bucketAddress false (Run.init w)).1 = 2) ∧
    remoteCalls (mainSteps sdk blah bucketAddress false (Run.init w)).2.trace =
      [.Upload 3 { Bucket := some (pathSplit bucketAddress).2, Key := some "thing",
                   Body := "blah".data.map Char.toNat },
       .ListObjectsV2 { Bucket := some (pathSplit bucketAddress).2, Prefix := some "",
                        ContinuationToken := none }] ∧
    ("blah".data.map Char.toNat).length = 4 ∧
    (∀ args, ∃ a c, main sdk args (Run.init w) = mainSteps sdk blah a c (Run.init w)) := by
  obtain ⟨opts, hg⟩ := getConfig_via_loader sdk bucketAddress hp
  have h := mainSteps_all_ok sdk blah bucketAddress opts hg w hok
  exact ⟨h.1, h.2, by decide, fun args => ⟨_, _, rfl⟩⟩

theorem mainSteps_requests_on_success_witness :
    (∀ e ∈ (main memSdk [] (Run.init testStore)).2.trace, e.ok = true) ∧
    (main memSdk [] (Run.init testStore)).1 = 0 ∧
    remoteCalls (main memSdk [] (Run.init testStore)).2.trace =
      [.Upload 3 { Bucket := some "test", Key := some "thing", Body := [98, 108, 97, 104] },
       .ListObjectsV2 { Bucket := some "test", Prefix := some "",
                        ContinuationToken := none }] :=
  ⟨all_ok_of_all _ (by rfl),
   by rfl,
   (mainSteps_requests_on_success memSdk "http://127.0.0.1:9000/test" testStore
      (Or.inr (Or.inl (by decide))) (all_ok_of_all _ (by rfl))).2.1⟩

/-- C10: for an address that starts with `http://` or `https://`, the split is
lossless with the separator on the server side: server followed directly by
the bucket name is the address, server ends with `/`, the bucket name holds no
`/`, and it is empty when the address ends with `/`.  The server is the URL
that `getConfig` pins in its single loader call, for every service and region,
and the bucket name is the one that the single request of each of
`createBucket`, `upload` and `listObjects` carries whenever the config
resolves.  `http://127.0.0.1:9000` splits into `http://` and
`127.0.0.1:9000`. -/
theorem pathSplit_lossless_on_http (sdk : Sdk σ Cfg) (bucketAddress : String) (r : Run σ)
    (h : "http://".data <+: bucketAddress.data ∨ "https://".data <+: bucketAddress.data) :
    (pathSplit bucketAddress).1 ++ (pathSplit bucketAddress).2 = bucketAddress ∧
    (pathSplit bucketAddress).1.data.getLast? = some '/' ∧
    '/' ∉ (pathSplit bucketAddress).2.data ∧
    (bucketAddress.data.getLast? = some '/' → (pathSplit bucketAddress).2 = "") ∧
    (∃ opts okFlag,
      (getConfig sdk bucketAddress r).2.trace = r.trace ++ [⟨.LoadDefaultConfig opts, okFlag⟩] ∧
      ∀ service region, pinnedEndpoint opts service region =
        some (.ok { PartitionID := "aws", URL := (pathSplit bucketAddress).1,
                    SigningRegion := "us-east-1", HostnameImmutable := true })) ∧
    (∀ (key : String) (b : List Nat) (cfg : Cfg) (r1 : Run σ),
      getConfig sdk bucketAddress r = (.ok cfg, r1) →
      remoteCalls (createBucket sdk bucketAddress r).2.trace
        = remoteCalls r.trace ++
            [.CreateBucket { Bucket := some (pathSplit bucketAddress).2 }] ∧
      remoteCalls (upload sdk bucketAddress key b r).2.trace
        = remoteCalls r.trace ++
            [.Upload 3 { Bucket := some (pathSplit bucketAddress).2, Key := some key,
                         Body := b }] ∧
      remoteCalls (listObjects sdk bucketAddress r).2.trace
        = remoteCalls r.trace ++
            [.ListObjectsV2 { Bucket := some (pathSplit bucketAddress).2, Prefix := some "",
                              ContinuationToken := none }]) ∧
    pathSplit "http://127.0.0.1:9000" = ("http://", "127.0.0.1:9000") := by
  refine ⟨pathSplit_append _, pathSplit_fst_ends_slash _ (slash_mem_of_http _ h),
    pathSplit_snd_no_slash _, pathSplit_snd_of_ends_slash _, ?_,
    fun key b cfg r1 hc => requests_carry_bucket sdk bucketAddress key b r r1 cfg hc,
    by decide⟩
  rw [getConfig_of_http sdk bucketAddress r h]
  obtain ⟨okFlag, e⟩ := callLoadDefaultConfig_eq sdk
    [.WithRegion "us-east-1", .WithEndpointResolverWithOptions (fun _ _ =>
        .ok { PartitionID := "aws", URL := (pathSplit bucketAddress).1,
              SigningRegion := "us-east-1", HostnameImmutable := true })] r
  rw [e]
  exact ⟨_, okFlag, rfl, fun _ _ => rfl⟩

theorem pathSplit_lossless_on_http_witness :
    ("http://".data <+: "http://127.0.0.1:9000".data ∨
      "https://".data <+: "http://127.0.0.1:9000".data) ∧
    (pathSplit "http://127.0.0.1:9000").1 ++ (pathSplit "http://127.0.0.1:9000").2
      = "http://127.0.0.1:9000" ∧
    (pathSplit "http://127.0.0.1:9000").1.data.getLast? = some '/' ∧
    '/' ∉ (pathSplit "http://127.0.0.1:9000").2.data ∧
    remoteCalls (upload memSdk "http://127.0.0.1:9000" "thing" blah
        (Run.init emptyStore)).2.trace
      = [.Upload 3 { Bucket := some "127.0.0.1:9000", Key := some "thing", Body := blah }] ∧
    remoteCalls (listObjects memSdk "http://127.0.0.1:9000" (Run.init emptyStore)).2.trace
      = [.ListObjectsV2 { Bucket := some "127.0.0.1:9000", Prefix := some "",
                          ContinuationToken := none }] :=
  ⟨Or.inl (by decide),
   (pathSplit_lossless_on_http memSdk "http://127.0.0.1:9000" (Run.init emptyStore)
      (Or.inl (by decide))).1,
   (pathSplit_lossless_on_http memSdk "http://127.0.0.1:9000" (Run.init emptyStore)
      (Or.inl (by decide))).2.1,
   (pathSplit_lossless_on_http memSdk "http://127.0.0.1:9000" (Run.init emptyStore)
      (Or.inl (by decide))).2.2.1,
   ((pathSplit_lossless_on_http memSdk "http://127.0.0.1:9000" (Run.init emptyStore)
      (Or.inl (by decide))).2.2.2.2.2.1 "thing" blah
      [.WithRegion "us-east-1", .WithEndpointResolverWithOptions (fun _ _ =>
        .ok { PartitionID := "aws", URL := "http://", SigningRegion := "us-east-1",
              HostnameImmutable := true })]
      (getConfig memSdk "http://127.0.0.1:9000" (Run.init emptyStore)).2 (by rfl)).2.1,
   ((pathSplit_lossless_on_http memSdk "http://127.0.0.1:9000" (Run.init emptyStore)
      (Or.inl (by decide))).2.2.2.2.2.1 "thing" blah
      [.WithRegion "us-east-1", .WithEndpointResolverWithOptions (fun _ _ =>
        .ok { PartitionID := "aws", URL := "http://", SigningRegion := "us-east-1",
              HostnameImmutable := true })]
      (getConfig memSdk "http://127.0.0.1:9000" (Run.init emptyStore)).2 (by rfl)).2.2⟩

end ClaimsTail

end AwsPlayground
